import Mathlib

/-!
Verification of the peer trust and authentication subsystem of the
ngnhng/awl repository (mesh-VPN tutorial code plus its design spec).

The Go sources are shallowly embedded:
* `tutorial/phase2/auth/main.go` — challenge/response authentication
  (`GenerateChallenge`, `RespondToChallenge`, `VerifyResponse`);
* the identity demo — `GenerateIdentity`, base64-derived peer IDs;
* the routing demo — `RoutingTable`, `AddPeer`, `AddRoute`, `GetPeer`,
  `processVPNPacket`.

Machine integers (Go `int64` nanosecond timestamps) are embedded as `Int`;
byte slices as `List Nat` with each byte below 256.  The Ed25519 primitives
live in Go's standard library, outside this repository, so they are embedded
as an ideal (symbolic) signature scheme: a Go `ed25519.PrivateKey` physically
contains its public key, so the private key is a structure carrying the
public key, a signature records the signer's public key together with the
exact signed bytes, and verification checks both for equality.  This models
Ed25519 correctness (signatures by a key verify under its own public key)
and ideal unforgeability (nothing else verifies).

The trust store and forwarding gate of the design spec have no code under
the repository's sources — only the spec describes them — so they are
modelled from the spec, marked as such in their doc comments.
-/

namespace Awl

/-- Byte slices (`[]byte`): lists of naturals, each byte below 256. -/
abbrev Bytes := List Nat

/-! ## Ideal Ed25519 (Go `crypto/ed25519`, external to the repository) -/

/-- Embedding of Go `ed25519.PrivateKey` (64 bytes): a seed followed by the public
key, so the private key determines its public key (`priv.Public()`).
Embedded as a structure carrying both. -/
structure Ed25519PrivateKey where
  seed : Bytes
  pub : Bytes
deriving DecidableEq

/-- Embedding of Go `ed25519.PublicKey` (32 bytes). -/
abbrev Ed25519PublicKey := Bytes

/-- The byte string `json.Marshal` produces for an `AuthChallenge`: the
three JSON fields `challenge`, `timestamp`, `nonce` in declaration order.
`json.Marshal` is injective on this struct, which the field tuple mirrors. -/
structure MarshalledChallenge where
  challengeField : Bytes
  timestampField : Int
  nonceField : Nat
deriving DecidableEq

/-- Ideal Ed25519 signature: records the signer's public key and the exact
message bytes that were signed. -/
structure Ed25519Signature where
  signerPub : Bytes
  signedMsg : MarshalledChallenge
deriving DecidableEq

/-- Embedding of `ed25519.Sign(priv, message)`: in the ideal model, the signature
captures the signer's public key and the signed bytes. -/
def ed25519Sign (sk : Ed25519PrivateKey) (m : MarshalledChallenge) : Ed25519Signature :=
  ⟨sk.pub, m⟩

/-- Embedding of `ed25519.Verify(pub, message, sig)`: succeeds exactly when `sig` was
produced by the private key belonging to `pub` over exactly `message`. -/
def ed25519Verify (pk : Ed25519PublicKey) (m : MarshalledChallenge)
    (sig : Ed25519Signature) : Bool :=
  sig.signerPub == pk && sig.signedMsg == m

/-! ## Challenge/response protocol (`tutorial/phase2/auth/main.go`) -/

/-- Embedding of `AuthChallenge`: 32 random bytes, an issuance wall-clock timestamp
(`time.Time`, embedded as UnixNano `Int`), and a nonce set from
`time.Now().UnixNano()` (a non-negative `int64`, embedded as `Nat`). -/
structure AuthChallenge where
  challenge : Bytes
  timestamp : Int
  nonce : Nat
deriving DecidableEq

/-- Embedding of `AuthResponse`: the responder's claimed peer ID and its signature. -/
structure AuthResponse where
  peerID : String
  signature : Ed25519Signature
deriving DecidableEq

/-- Embedding of `PeerIdentity` from the phase-2 demo. -/
structure PeerIdentity where
  publicKey : Ed25519PublicKey
  privateKey : Ed25519PrivateKey
  id : String
deriving DecidableEq

/-- Embedding of `GenerateChallenge()`.  The two `time.Now()` reads (one for `Timestamp`,
one for `Nonce`) and the 32 random bytes are explicit inputs; the function
body just assembles the struct. -/
def GenerateChallenge (timestampNow : Int) (nonceNow : Nat) (randomBytes : Bytes) :
    AuthChallenge :=
  { challenge := randomBytes, timestamp := timestampNow, nonce := nonceNow }

/-- Embedding of `json.Marshal(challenge)` inside `RespondToChallenge`/`VerifyResponse`. -/
def marshalChallenge (c : AuthChallenge) : MarshalledChallenge :=
  ⟨c.challenge, c.timestamp, c.nonce⟩

/-- Embedding of `(*PeerIdentity).RespondToChallenge`: sign the marshalled challenge and
return it under the responder's own ID. -/
def RespondToChallenge (pi : PeerIdentity) (c : AuthChallenge) : AuthResponse :=
  { peerID := pi.id, signature := ed25519Sign pi.privateKey (marshalChallenge c) }

/-- The three result strings `VerifyResponse` can return, as an inductive:
`expired age` is `"challenge expired (age: …)"` (the string interpolates the
age, carried here as data), `invalidSignature` is `"invalid signature"`,
and `authSuccess` is `"authentication successful"`. -/
inductive VerifyReason where
  | expired (age : Int)
  | invalidSignature
  | authSuccess
deriving DecidableEq

/-- The hard-coded `30*time.Second` expiry bound, in nanoseconds. -/
def maxChallengeAge : Int := 30 * 1000000000

/-- Embedding of `VerifyResponse(challenge, response, publicKey)`.  The wall clock read
by `time.Since` is the explicit `now` argument; `age = now - timestamp`.
The code checks expiry first, then the signature; there is no check
involving `response.PeerID`. -/
def VerifyResponse (now : Int) (c : AuthChallenge) (r : AuthResponse)
    (pk : Ed25519PublicKey) : Bool × VerifyReason :=
  let age := now - c.timestamp
  if age > maxChallengeAge then
    (false, .expired age)
  else if ed25519Verify pk (marshalChallenge c) r.signature then
    (true, .authSuccess)
  else
    (false, .invalidSignature)

/-! ## Identity (`GenerateIdentity` demo file) -/

/-- One base64 character of the RFC 4648 standard alphabet. -/
def base64Char (n : Nat) : Char :=
  "ABCDEFGHIJKLMNOPQRSTUVWXYZabcdefghijklmnopqrstuvwxyz0123456789+/".toList.getD n 'A'

/-- RFC 4648 standard base64 of a byte list, three input bytes per four
output characters, `=`-padded (Go's `base64.StdEncoding`). -/
def base64Chunks : Bytes → List Char
  | [] => []
  | [b0] =>
      [base64Char (b0 / 4), base64Char (b0 % 4 * 16), '=', '=']
  | [b0, b1] =>
      [base64Char (b0 / 4), base64Char (b0 % 4 * 16 + b1 / 16),
       base64Char (b1 % 16 * 4), '=']
  | b0 :: b1 :: b2 :: rest =>
      base64Char (b0 / 4) :: base64Char (b0 % 4 * 16 + b1 / 16)
        :: base64Char (b1 % 16 * 4 + b2 / 64) :: base64Char (b2 % 64)
        :: base64Chunks rest

/-- Embedding of `base64.StdEncoding.EncodeToString`. -/
def base64StdEncode (bs : Bytes) : String :=
  String.mk (base64Chunks bs)

/-- Embedding of `GenerateIdentity()`.  The call to `ed25519.GenerateKey(rand.Reader)`
is the explicit `keygen` input (its error is the entropy-source failure);
on success the peer ID is the base64-encoded public key. -/
def GenerateIdentity (keygen : Except String (Ed25519PublicKey × Ed25519PrivateKey)) :
    Except String PeerIdentity :=
  match keygen with
  | .error e => .error e
  | .ok (pub, priv) =>
      .ok { publicKey := pub, privateKey := priv, id := base64StdEncode pub }

/-! ## Routing table (packet-routing demo file) -/

/-- Embedding of `PeerInfo` from the routing demo. -/
structure PeerInfo where
  id : String
  name : String
  address : String
  connStatus : String
deriving DecidableEq

/-- Embedding of `RoutingTable`: the `routes` map (IP → PeerID) and the `peers` map
(PeerID → PeerInfo), embedded as association lists; `lookup` finds the
first binding and `mapSet` overwrites, matching Go map semantics.  The
mutex only serializes access and has no sequential semantics. -/
structure RoutingTable where
  routes : List (String × String)
  peers : List (String × PeerInfo)
deriving DecidableEq

/-- Go map assignment `m[k] = v`: the new binding shadows (here: replaces)
any previous binding of `k`. -/
def mapSet {β : Type} (m : List (String × β)) (k : String) (v : β) :
    List (String × β) :=
  (k, v) :: m.filter (fun p => !(p.1 == k))

/-- Embedding of `NewRoutingTable()`. -/
def NewRoutingTable : RoutingTable :=
  { routes := [], peers := [] }

/-- Embedding of `(*RoutingTable).AddPeer`. -/
def AddPeer (rt : RoutingTable) (info : PeerInfo) : RoutingTable :=
  { rt with peers := mapSet rt.peers info.id info }

/-- Embedding of `(*RoutingTable).AddRoute`: if `peerID` has no entry in `peers`, return
the error `peer … not found` and leave the table untouched; otherwise add
the route.  The Go method mutates its receiver and returns `error`, so the
embedding returns the updated table and an optional error string. -/
def AddRoute (rt : RoutingTable) (ip peerID : String) :
    RoutingTable × Option String :=
  match rt.peers.lookup peerID with
  | none => (rt, some ("peer " ++ peerID ++ " not found"))
  | some _ => ({ rt with routes := mapSet rt.routes ip peerID }, none)

/-- Embedding of `(*RoutingTable).GetPeer`: route lookup then peer lookup; `none` embeds
Go's `(PeerInfo{}, false)`. -/
def GetPeer (rt : RoutingTable) (ip : String) : Option PeerInfo :=
  match rt.routes.lookup ip with
  | none => none
  | some peerID => rt.peers.lookup peerID

/-- Embedding of `net.IP.String()` for the 4-byte slices `parsePacket` produces:
dotted-quad decimal. -/
def ipToString (ip : Bytes) : String :=
  String.intercalate "." (ip.map toString)

/-- What `processVPNPacket` does with a packet, as an inductive outcome.
Every branch of the Go function returns normally (printing only); none
raises an error. -/
inductive PacketOutcome where
  | parseError
  | droppedNoRoute
  | queuedNotConnected (peer : PeerInfo)
  | forwarded (peer : PeerInfo)
deriving DecidableEq

/-- Embedding of `processVPNPacket(packetData, routingTable)`: parse (fails only below
20 bytes), look up the destination `data[16:20]`; no route drops the
packet, a peer whose status is not `"connected"` queues it, otherwise it
is forwarded. -/
def processVPNPacket (packetData : Bytes) (rt : RoutingTable) : PacketOutcome :=
  if packetData.length < 20 then .parseError
  else
    let dstIP := ipToString ((packetData.drop 16).take 4)
    match GetPeer rt dstIP with
    | none => .droppedNoRoute
    | some peer =>
        if peer.connStatus ≠ "connected" then .queuedNotConnected peer
        else .forwarded peer

/-! ## Trust store and forwarding gate (spec §3, §4.3–§4.5)

No code of the trust subsystem is under the repository sources — only the
design spec describes it — so it is modelled from the spec below. -/

/-- Modelled from the spec: the `TrustRecord.status` enum
`{Unknown, PendingInbound, PendingOutbound, Authorized, Blocked}` (§3);
no `ShouldForward`/trust-store code exists under the sources. -/
inductive TrustStatus where
  | unknown
  | pendingInbound
  | pendingOutbound
  | authorized
  | blocked
deriving DecidableEq, Fintype

/-- Modelled from the spec: a `TrustRecord` (§3). -/
structure TrustRecord where
  peerID : String
  publicKey : Bytes
  displayName : String
  trustStatus : TrustStatus
  assignedAddress : Option String
  lastHandshakeAt : Int
deriving DecidableEq

/-- Modelled from the spec: the trust store, an ordered collection of
`TrustRecord`s keyed by peerID (§4.3, §6). -/
abbrev TrustStore := List (String × TrustRecord)

/-- Modelled from the spec: the events that drive the `status` state
machine (§4.3's transition table plus §4.4 step 4's handshake update). -/
inductive TrustEvent where
  | inboundObserved
  | operatorAdd
  | operatorApprove
  | operatorReject
  | peerApprove
  | operatorBlock
  | operatorUnblock
  | handshakeSuccess
deriving DecidableEq, Fintype

/-- Modelled from the spec: the `status` state machine of §4.3.  Arrows not
in the spec's table leave the status unchanged (operations are idempotent,
§6); a successful handshake only moves `Unknown` to `PendingInbound`
(§4.4 step 4). -/
def statusStep (e : TrustEvent) (s : TrustStatus) : TrustStatus :=
  match e, s with
  | .inboundObserved, .unknown => .pendingInbound
  | .operatorAdd, .unknown => .pendingOutbound
  | .operatorApprove, .pendingInbound => .authorized
  | .operatorReject, .pendingInbound => .blocked
  | .peerApprove, .pendingOutbound => .authorized
  | .operatorBlock, _ => .blocked
  | .operatorUnblock, .blocked => .pendingInbound
  | .handshakeSuccess, .unknown => .pendingInbound
  | _, s => s

/-- Modelled from the spec: `IsAuthorizedToForward(peerID)` — true iff the
peer's record exists and its status is `Authorized` (§4.4). -/
def IsAuthorizedToForward (store : TrustStore) (peerID : String) : Bool :=
  match store.lookup peerID with
  | none => false
  | some r => r.trustStatus == .authorized

/-- Modelled from the spec: `ShouldForward(destinationVirtualAddress)`
(§4.5) — resolve the owning peer through the external address→peerID map,
then gate on `IsAuthorizedToForward`. -/
def ShouldForward (addrToPeer : List (String × String)) (store : TrustStore)
    (dst : String) : Option String × Bool :=
  match addrToPeer.lookup dst with
  | none => (none, false)
  | some pid => (some pid, IsAuthorizedToForward store pid)

/-- Modelled from the spec: what the data-plane caller does with the gate's
answer (§4.5) — forward on `allow`, otherwise drop the packet; dropping is
a normal outcome, not an error. -/
inductive ForwardDecision where
  | forwardTo (peerID : String)
  | drop
deriving DecidableEq

/-- Modelled from the spec: the caller of `ShouldForward` (§4.5). -/
def forwardPacket (addrToPeer : List (String × String)) (store : TrustStore)
    (dst : String) : ForwardDecision :=
  match ShouldForward addrToPeer store dst with
  | (some pid, true) => .forwardTo pid
  | _ => .drop

/-! ## Helper lemmas -/

/-- XOR with a power of two always changes a natural number. -/
theorem xor_two_pow_ne (n k : Nat) : n ^^^ 2 ^ k ≠ n := by
  intro h
  have h2 : n ^^^ (n ^^^ 2 ^ k) = n ^^^ n := by rw [h]
  rw [← Nat.xor_assoc, Nat.xor_self, Nat.zero_xor] at h2
  exact absurd h2 (pow_ne_zero k (by norm_num))

/-- Writing a bit-flipped byte back into a byte list changes the list. -/
theorem set_xor_two_pow_ne (l : Bytes) (i k : Nat) (hi : i < l.length) :
    l.set i (l[i] ^^^ 2 ^ k) ≠ l := by
  intro h
  have h1 : (l.set i (l[i] ^^^ 2 ^ k))[i]? = l[i]? := by rw [h]
  rw [List.getElem?_set_self hi, List.getElem?_eq_getElem hi] at h1
  exact absurd (Option.some.inj h1) (xor_two_pow_ne _ k)

/-- Successful `GenerateIdentity` results carry the base64 of their own
public key as their ID. -/
theorem generateIdentity_id_eq (kg : Except String (Ed25519PublicKey × Ed25519PrivateKey))
    (i : PeerIdentity) (h : GenerateIdentity kg = .ok i) :
    i.id = base64StdEncode i.publicKey := by
  cases kg with
  | error e => simp [GenerateIdentity] at h
  | ok pair =>
      obtain ⟨pub, priv⟩ := pair
      simp only [GenerateIdentity, Except.ok.injEq] at h
      rw [← h]

/-! ## Claims -/

/-- Claim C1: for every identity whose stored public key belongs to its
private key and every challenge that has not expired
(`now - challenge.timestamp ≤ 30s`), verifying the identity's own response
to that challenge against the identity's public key succeeds with the
"authentication successful" outcome. -/
theorem verify_own_response_ok (pi : PeerIdentity) (c : AuthChallenge) (now : Int)
    (hkey : pi.publicKey = pi.privateKey.pub)
    (hage : now - c.timestamp ≤ maxChallengeAge) :
    VerifyResponse now c (RespondToChallenge pi c) pi.publicKey = (true, .authSuccess) := by
  have hv : ed25519Verify pi.publicKey (marshalChallenge c)
      (RespondToChallenge pi c).signature = true := by
    simp [ed25519Verify, RespondToChallenge, ed25519Sign, hkey]
  simp only [VerifyResponse]
  rw [if_neg (by omega), if_pos hv]

/-- Witness for C1 at a concrete identity and challenge. -/
theorem verify_own_response_ok_witness :
    VerifyResponse 0 ⟨[1], 0, 0⟩
      (RespondToChallenge ⟨[5], ⟨[2], [5]⟩, "a"⟩ ⟨[1], 0, 0⟩) [5] =
      (true, .authSuccess) :=
  verify_own_response_ok ⟨[5], ⟨[2], [5]⟩, "a"⟩ ⟨[1], 0, 0⟩ 0 rfl (by decide)

/-- Claim C3: every response to a challenge whose age exceeds the maximum
(30 seconds) is rejected as expired, regardless of the signature. -/
theorem verify_expired_of_age_gt_max (now : Int) (c : AuthChallenge)
    (r : AuthResponse) (pk : Ed25519PublicKey)
    (h : now - c.timestamp > maxChallengeAge) :
    VerifyResponse now c r pk = (false, .expired (now - c.timestamp)) := by
  simp only [VerifyResponse]
  rw [if_pos h]

/-- Witness for C3 at a concrete stale challenge (the signature is even a
valid one over the exact challenge, yet the result is `expired`). -/
theorem verify_expired_of_age_gt_max_witness :
    VerifyResponse 40000000000 ⟨[1], 0, 0⟩
      (RespondToChallenge ⟨[5], ⟨[2], [5]⟩, "a"⟩ ⟨[1], 0, 0⟩) [5] =
      (false, .expired 40000000000) :=
  verify_expired_of_age_gt_max 40000000000 ⟨[1], 0, 0⟩
    (RespondToChallenge ⟨[5], ⟨[2], [5]⟩, "a"⟩ ⟨[1], 0, 0⟩) [5] (by decide)

/-- Claim C9: `VerifyResponse` never reads `response.PeerID` — two
responses with the same signature get the same verdict and reason, whatever
their `PeerID` fields. -/
theorem verify_ignores_peer_id (now : Int) (c : AuthChallenge)
    (r₁ r₂ : AuthResponse) (pk : Ed25519PublicKey)
    (h : r₁.signature = r₂.signature) :
    VerifyResponse now c r₁ pk = VerifyResponse now c r₂ pk := by
  simp only [VerifyResponse, h]

/-- Witness for C9: two responses with the same signature but different
peer IDs. -/
theorem verify_ignores_peer_id_witness :
    VerifyResponse 0 ⟨[1], 0, 0⟩ ⟨"alice", ⟨[5], ⟨[1], 0, 0⟩⟩⟩ [5] =
      VerifyResponse 0 ⟨[1], 0, 0⟩ ⟨"mallory", ⟨[5], ⟨[1], 0, 0⟩⟩⟩ [5] :=
  verify_ignores_peer_id 0 ⟨[1], 0, 0⟩ ⟨"alice", ⟨[5], ⟨[1], 0, 0⟩⟩⟩
    ⟨"mallory", ⟨[5], ⟨[1], 0, 0⟩⟩⟩ [5] rfl

/-- Counterexample to claim C2: the code has no `KeyMismatch` reason and no
identity-consistency check.  A response correctly signed by Bob's key
(public key `[20]`) but presented under Alice's identity and verified
against Alice's public key `[10]` yields the same `"invalid signature"`
reason as an outright garbage signature verified under the signer's own
key, so the claimed fourth reason and its exclusivity with `BadSignature`
fail on the code. -/
theorem verify_no_key_mismatch_counterexample :
    VerifyResponse 0 ⟨[0], 0, 0⟩
        ⟨"alice", ed25519Sign ⟨[7], [20]⟩ (marshalChallenge ⟨[0], 0, 0⟩)⟩ [10] =
      (false, .invalidSignature) ∧
    VerifyResponse 0 ⟨[0], 0, 0⟩ ⟨"bob", ⟨[20], marshalChallenge ⟨[9], 9, 9⟩⟩⟩ [20] =
      (false, .invalidSignature) := by
  constructor <;> rfl

/-- Claim C2 (amended): `VerifyResponse` returns exactly one reason from
{`authentication successful`, `challenge expired`, `invalid signature`};
there is no `KeyMismatch` reason and no identity-consistency check.  The
checks run in the fixed order expiry then signature: an expired challenge
is reported expired regardless of the signature, success happens exactly
when the challenge is fresh and the signature verifies over the exact
marshalled challenge, and a response signed by one peer's key but verified
against a different claimed public key yields `invalid signature`. -/
theorem verify_reason_cases (now : Int) (c : AuthChallenge) (r : AuthResponse)
    (pk : Ed25519PublicKey) (sk : Ed25519PrivateKey) (pid : String) :
    (now - c.timestamp > maxChallengeAge →
      VerifyResponse now c r pk = (false, .expired (now - c.timestamp))) ∧
    (now - c.timestamp ≤ maxChallengeAge →
      VerifyResponse now c r pk = (true, .authSuccess) ∨
      VerifyResponse now c r pk = (false, .invalidSignature)) ∧
    (VerifyResponse now c r pk = (true, .authSuccess) ↔
      now - c.timestamp ≤ maxChallengeAge ∧
        ed25519Verify pk (marshalChallenge c) r.signature = true) ∧
    (now - c.timestamp ≤ maxChallengeAge → sk.pub ≠ pk →
      VerifyResponse now c ⟨pid, ed25519Sign sk (marshalChallenge c)⟩ pk =
        (false, .invalidSignature)) := by
  refine ⟨fun h => by simp only [VerifyResponse]; rw [if_pos h], fun h => ?_, ?_, fun h hk => ?_⟩
  · simp only [VerifyResponse]
    rw [if_neg (by omega)]
    by_cases hv : ed25519Verify pk (marshalChallenge c) r.signature = true
    · exact Or.inl (by rw [if_pos hv])
    · exact Or.inr (by rw [if_neg hv])
  · constructor
    · intro h
      simp only [VerifyResponse] at h
      by_cases hexp : now - c.timestamp > maxChallengeAge
      · rw [if_pos hexp] at h; exact absurd h (by simp)
      · rw [if_neg hexp] at h
        by_cases hv : ed25519Verify pk (marshalChallenge c) r.signature = true
        · exact ⟨by omega, hv⟩
        · rw [if_neg hv] at h; exact absurd h (by simp)
    · rintro ⟨hage, hv⟩
      simp only [VerifyResponse]
      rw [if_neg (by omega), if_pos hv]
  · have hv : ed25519Verify pk (marshalChallenge c)
        (ed25519Sign sk (marshalChallenge c)) = false := by
      simp [ed25519Verify, ed25519Sign, hk]
    simp only [VerifyResponse]
    rw [if_neg (by omega)]
    simp [hv]

/-- Witness for the amended C2 theorem: concrete fresh challenge, wrong-key
response rejected as `invalid signature`. -/
theorem verify_reason_cases_witness :
    VerifyResponse 0 ⟨[0], 0, 0⟩
        ⟨"alice", ed25519Sign ⟨[7], [20]⟩ (marshalChallenge ⟨[0], 0, 0⟩)⟩ [10] =
      (false, .invalidSignature) :=
  (verify_reason_cases 0 ⟨[0], 0, 0⟩
      ⟨"alice", ed25519Sign ⟨[7], [20]⟩ (marshalChallenge ⟨[0], 0, 0⟩)⟩
      [10] ⟨[7], [20]⟩ "alice").2.2.2 (by decide) (by decide)

/-- Counterexample to claim C7: `AuthChallenge` has no `sequence` field at
all; the only counter-like field is `Nonce`, set from `time.Now().UnixNano()`.
Two consecutive issuances between which the wall-clock reading did not
advance (both reads return nanosecond 5) produce equal nonces, so the later
challenge's counter is not strictly greater than the earlier one's. -/
theorem challenge_counter_not_increasing_counterexample :
    ¬ (GenerateChallenge 0 5 [1]).nonce < (GenerateChallenge 0 5 [2]).nonce := by
  decide

/-- Claim C7 (amended): challenges carry no `sequence` field; the `Nonce`
field is the `UnixNano` wall-clock reading at issuance, so a later
challenge's nonce is strictly greater than an earlier one's exactly when
the clock reading strictly advanced between the two issuances. -/
theorem challenge_nonce_lt_iff_clock_advanced (t₁ t₂ : Int) (n₁ n₂ : Nat)
    (r₁ r₂ : Bytes) :
    (GenerateChallenge t₁ n₁ r₁).nonce < (GenerateChallenge t₂ n₂ r₂).nonce ↔
      n₁ < n₂ :=
  Iff.rfl

/-- Claim C4: flipping any single bit of a byte of the challenge's random
nonce bytes on one side of the exchange makes verification fail with
`invalid signature`, never succeed (and the embedding is a total function,
so no crash): whether the responder signed the mutated challenge and the
verifier holds the original, or the verifier's copy was mutated after the
response was signed over the original, the signature no longer covers the
exact bytes the verifier marshals. -/
theorem verify_bit_flip_invalid_signature (pi : PeerIdentity) (c c' : AuthChallenge)
    (now : Int) (i k : Nat) (pk : Ed25519PublicKey)
    (hi : i < c.challenge.length)
    (hc' : c' = { c with challenge := c.challenge.set i (c.challenge[i] ^^^ 2 ^ k) })
    (hage : now - c.timestamp ≤ maxChallengeAge) :
    VerifyResponse now c (RespondToChallenge pi c') pk = (false, .invalidSignature) ∧
    VerifyResponse now c' (RespondToChallenge pi c) pk = (false, .invalidSignature) := by
  have hne : marshalChallenge c' ≠ marshalChallenge c := by
    rw [hc']
    simp only [marshalChallenge, ne_eq, MarshalledChallenge.mk.injEq, not_and]
    intro h
    exact absurd h (set_xor_two_pow_ne _ _ _ hi)
  have hts : c'.timestamp = c.timestamp := by rw [hc']
  constructor
  · have hv : ed25519Verify pk (marshalChallenge c)
        (RespondToChallenge pi c').signature = false := by
      simp only [RespondToChallenge, ed25519Sign, ed25519Verify,
        Bool.and_eq_false_iff, beq_eq_false_iff_ne, ne_eq]
      exact Or.inr hne
    simp only [VerifyResponse]
    rw [if_neg (by omega), if_neg (by simp [hv])]
  · have hv : ed25519Verify pk (marshalChallenge c')
        (RespondToChallenge pi c).signature = false := by
      simp only [RespondToChallenge, ed25519Sign, ed25519Verify,
        Bool.and_eq_false_iff, beq_eq_false_iff_ne, ne_eq]
      exact Or.inr (Ne.symm hne)
    simp only [VerifyResponse, hts]
    rw [if_neg (by omega), if_neg (by simp [hv])]

/-- Witness for C4: flipping bit 3 of byte 0 of a two-byte challenge. -/
theorem verify_bit_flip_invalid_signature_witness :
    VerifyResponse 0 ⟨[0, 0], 0, 0⟩
        (RespondToChallenge ⟨[5], ⟨[2], [5]⟩, "a"⟩ ⟨[8, 0], 0, 0⟩) [5] =
      (false, .invalidSignature) ∧
    VerifyResponse 0 ⟨[8, 0], 0, 0⟩
        (RespondToChallenge ⟨[5], ⟨[2], [5]⟩, "a"⟩ ⟨[0, 0], 0, 0⟩) [5] =
      (false, .invalidSignature) :=
  verify_bit_flip_invalid_signature ⟨[5], ⟨[2], [5]⟩, "a"⟩ ⟨[0, 0], 0, 0⟩
    ⟨[8, 0], 0, 0⟩ 0 0 3 [5] (by decide) (by decide) (by decide)

/-- Claim C8: `GenerateIdentity` fails exactly when the entropy source
(key generation) fails, and the returned ID is derived deterministically
from the public key alone: two successfully generated identities with the
same public key have the same ID. -/
theorem generate_identity_contract
    (kg kg₁ kg₂ : Except String (Ed25519PublicKey × Ed25519PrivateKey))
    (i₁ i₂ : PeerIdentity) :
    (∀ e, GenerateIdentity kg = .error e ↔ kg = .error e) ∧
    (GenerateIdentity kg₁ = .ok i₁ → GenerateIdentity kg₂ = .ok i₂ →
      i₁.publicKey = i₂.publicKey → i₁.id = i₂.id) := by
  constructor
  · intro e
    cases kg with
    | error e₀ => simp [GenerateIdentity]
    | ok pair =>
        obtain ⟨pub, priv⟩ := pair
        simp [GenerateIdentity]
  · intro h₁ h₂ hpk
    rw [generateIdentity_id_eq kg₁ i₁ h₁, generateIdentity_id_eq kg₂ i₂ h₂, hpk]

/-- Witness for C8: two keypairs sharing a public key yield the same ID. -/
theorem generate_identity_contract_witness :
    (⟨[1], ⟨[2], [1]⟩, base64StdEncode [1]⟩ : PeerIdentity).id =
      (⟨[1], ⟨[3], [1]⟩, base64StdEncode [1]⟩ : PeerIdentity).id :=
  (generate_identity_contract (.ok ([1], ⟨[2], [1]⟩)) (.ok ([1], ⟨[2], [1]⟩))
      (.ok ([1], ⟨[3], [1]⟩)) ⟨[1], ⟨[2], [1]⟩, base64StdEncode [1]⟩
      ⟨[1], ⟨[3], [1]⟩, base64StdEncode [1]⟩).2 rfl rfl rfl

/-- Claim C10: `AddRoute` with a peer ID that has no registered peer entry
returns the `peer … not found` error and leaves the table unchanged; on
success the peer was registered, and the invariant that every route maps
to a registered peer is preserved across the insertion. -/
theorem add_route_requires_registered_peer (rt : RoutingTable) (ip pid : String) :
    (rt.peers.lookup pid = none →
      AddRoute rt ip pid = (rt, some ("peer " ++ pid ++ " not found"))) ∧
    (∀ rt', AddRoute rt ip pid = (rt', none) →
      rt'.peers = rt.peers ∧
      rt'.routes.lookup ip = some pid ∧
      (rt.peers.lookup pid).isSome = true ∧
      ((∀ q ∈ rt.routes, (rt.peers.lookup q.2).isSome = true) →
        ∀ q ∈ rt'.routes, (rt'.peers.lookup q.2).isSome = true)) := by
  constructor
  · intro h
    simp [AddRoute, h]
  · intro rt' h
    cases hl : rt.peers.lookup pid with
    | none => simp [AddRoute, hl] at h
    | some info =>
        simp only [AddRoute, hl] at h
        have hrt : rt' = { rt with routes := mapSet rt.routes ip pid } :=
          (congrArg Prod.fst h).symm
        subst hrt
        refine ⟨rfl, ?_, by simp [hl], ?_⟩
        · simp [mapSet, List.lookup_cons]
        · intro hinv q hq
          simp only [mapSet] at hq
          rcases List.mem_cons.mp hq with hq | hq
          · rw [hq]
            simp [hl]
          · exact hinv q (List.mem_filter.mp hq).1

/-- Witness for C10: adding a route to an unregistered peer on the empty
table errors out and returns the table unchanged. -/
theorem add_route_requires_registered_peer_witness :
    AddRoute NewRoutingTable "10.66.0.2" "bob" =
      (NewRoutingTable, some ("peer " ++ "bob" ++ " not found")) :=
  (add_route_requires_registered_peer NewRoutingTable "10.66.0.2" "bob").1 rfl

/-- Claim C5 (gate modelled from the spec): `ShouldForward` answers
`allow=false` when the destination has no owning peer, when the owning
peer has no trust record, and when its record's status is
`PendingInbound`, `PendingOutbound`, or `Blocked`; `allow=true` implies the
owner's record exists with status `Authorized`; and a disallowed
destination makes the caller drop the packet, a normal outcome rather than
an error. -/
theorem forwarding_gate_allows_only_authorized
    (addrToPeer : List (String × String)) (store : TrustStore)
    (dst pid : String) (r : TrustRecord) :
    (addrToPeer.lookup dst = none →
      ShouldForward addrToPeer store dst = (none, false)) ∧
    (addrToPeer.lookup dst = some pid → store.lookup pid = none →
      ShouldForward addrToPeer store dst = (some pid, false)) ∧
    (addrToPeer.lookup dst = some pid → store.lookup pid = some r →
      (r.trustStatus = .pendingInbound ∨ r.trustStatus = .pendingOutbound ∨
        r.trustStatus = .blocked) →
      ShouldForward addrToPeer store dst = (some pid, false)) ∧
    (∀ p, ShouldForward addrToPeer store dst = (p, true) →
      ∃ pid2 r2, p = some pid2 ∧ store.lookup pid2 = some r2 ∧
        r2.trustStatus = .authorized) ∧
    ((ShouldForward addrToPeer store dst).2 = false →
      forwardPacket addrToPeer store dst = .drop) := by
  refine ⟨fun h => by simp [ShouldForward, h], fun h hs => ?_, fun h hs hst => ?_,
    fun p hp => ?_, fun h => ?_⟩
  · simp [ShouldForward, h, IsAuthorizedToForward, hs]
  · simp only [ShouldForward, h, IsAuthorizedToForward, hs, Prod.mk.injEq]
    rcases hst with hst | hst | hst <;> simp [hst]
  · cases hl : addrToPeer.lookup dst with
    | none => simp [ShouldForward, hl] at hp
    | some pid1 =>
        simp only [ShouldForward, hl, Prod.mk.injEq] at hp
        obtain ⟨hp1, hp2⟩ := hp
        cases hs : store.lookup pid1 with
        | none => simp [IsAuthorizedToForward, hs] at hp2
        | some r2 =>
            refine ⟨pid1, r2, hp1.symm, hs, ?_⟩
            simpa [IsAuthorizedToForward, hs] using hp2
  · cases hsf : ShouldForward addrToPeer store dst with
    | mk p b =>
        rw [hsf] at h
        simp only at h
        subst h
        cases p <;> simp [forwardPacket, hsf]

/-- Witness for C5: a pending-inbound peer's address is not forwarded to. -/
theorem forwarding_gate_allows_only_authorized_witness :
    ShouldForward [("10.66.0.2", "bob")]
        [("bob", ⟨"bob", [1], "Bob", .pendingInbound, none, 0⟩)] "10.66.0.2" =
      (some "bob", false) :=
  (forwarding_gate_allows_only_authorized [("10.66.0.2", "bob")]
      [("bob", ⟨"bob", [1], "Bob", .pendingInbound, none, 0⟩)] "10.66.0.2"
      "bob" ⟨"bob", [1], "Bob", .pendingInbound, none, 0⟩).2.2.1
    (by decide) (by decide) (Or.inl rfl)

/-- Claim C6: in the trust state machine (modelled from the spec), a
successful handshake never moves a record into `Authorized`; the only
events reaching `Authorized` from elsewhere are the explicit approval
decisions (local operator approval of a pending-inbound peer, or the remote
peer's approval of our pending-outbound request). -/
theorem handshake_never_authorizes :
    (∀ s, statusStep .handshakeSuccess s = .authorized → s = .authorized) ∧
    (∀ e s, statusStep e s = .authorized →
      s = .authorized ∨ e = .operatorApprove ∨ e = .peerApprove) := by
  decide

/-- Witness for C6: the approval of a pending-inbound peer is an approve
event. -/
theorem handshake_never_authorizes_witness :
    TrustStatus.pendingInbound = TrustStatus.authorized ∨
      TrustEvent.operatorApprove = TrustEvent.operatorApprove ∨
      TrustEvent.operatorApprove = TrustEvent.peerApprove :=
  handshake_never_authorizes.2 .operatorApprove .pendingInbound (by decide)

end Awl
